import Mathlib

/-!
Shallow embedding of `src/propulsion_tcp_client.py`, a small asyncio TCP bridge:
a command pump (`read_stdin_and_send`) forwarding stdin lines to a command
socket, a telemetry pump (`read_tcp_and_print`) printing socket bytes decoded
as UTF-8 with replacement, and a supervisor (`tcp_translation_client`) that
opens the two connections, runs the pumps concurrently, and tears them down
when the first one finishes.

Bytes are modelled as `Nat` (the source never does byte arithmetic, so no
wraparound is involved).  Stream contents are `List Nat`.  The asyncio
control flow of each function is modelled as an explicit event trace or as an
explicit outcome function, transcribed statement by statement from the source.
-/

namespace Propulsion

/-- Python exception values relevant to this program.  In Python >= 3.8,
`asyncio.CancelledError` and `KeyboardInterrupt` derive from `BaseException`
but not from `Exception`; the other listed exceptions derive from
`Exception`. -/
inductive PyExc
  | connectionResetError
  | cancelledError
  | connectionRefusedError (msg : String)
  | keyboardInterrupt
  | otherError (msg : String)
deriving DecidableEq, Repr

/-- Whether `e` is an instance of Python's `Exception` class, i.e. is caught
by the `except Exception as e` on line 63 of the source.  `CancelledError`
and `KeyboardInterrupt` derive from `BaseException` only. -/
def isExceptionInstance : PyExc → Bool
  | PyExc.cancelledError => false
  | PyExc.keyboardInterrupt => false
  | _ => true

/-- The message text Python would render for the exception (`f"Error: {e}"`
interpolates `str(e)`); for the parameterised constructors it is the carried
message, abstracting the exact stdlib wording for the others. -/
def pyExcStr : PyExc → String
  | PyExc.connectionResetError => "Connection reset by peer"
  | PyExc.cancelledError => ""
  | PyExc.connectionRefusedError m => m
  | PyExc.keyboardInterrupt => ""
  | PyExc.otherError m => m

/-- Whether `e` is caught by the handler
`except (ConnectionResetError, asyncio.CancelledError): pass`
appearing on lines 21-22 and 37-38 of the source. -/
def caughtByPumpExcept : PyExc → Bool
  | PyExc.connectionResetError => true
  | PyExc.cancelledError => true
  | _ => false

/-- How the `try` body of a pump ended: either its loop broke normally
(end-of-file on stdin, zero-byte read on the socket), or an exception was
raised at an await point inside the loop. -/
inductive TryEnd
  | broke
  | raised (e : PyExc)
deriving DecidableEq, Repr

/-! ## Command pump: `read_stdin_and_send` (lines 7-25) -/

/-- Observable events of the command pump: a `readline` returning the given
bytes (empty means end-of-file), a `writer.write` of the given bytes, an
awaited `writer.drain`, `writer.close`, and an awaited `writer.wait_closed`. -/
inductive PumpEv
  | readLine (l : List Nat)
  | write (l : List Nat)
  | drain
  | close
  | waitClosed
deriving DecidableEq, Repr

/-- `asyncio.StreamReader.readline` on a stream holding exactly the bytes `s`
followed by end-of-file: returns the bytes up to and including the first
newline (byte 10), or all remaining bytes at end-of-file, together with the
bytes left in the stream. -/
def readline : List Nat → List Nat × List Nat
  | [] => ([], [])
  | b :: rest =>
    if b = 10 then ([b], rest)
    else
      let p := readline rest
      (b :: p.1, p.2)

/-- The event trace of `read_stdin_and_send` when standard input holds exactly
the bytes `s` followed by end-of-file and no exception is raised: the loop of
lines 15-20 (`readline`; break when the result is empty; `write`;
`await drain`), followed by the `finally` block of lines 23-25 (`close`;
`await wait_closed`). -/
def read_stdin_and_send (s : List Nat) : List PumpEv :=
  if _h : (readline s).1 = [] then
    [PumpEv.readLine [], PumpEv.close, PumpEv.waitClosed]
  else
    PumpEv.readLine (readline s).1 :: PumpEv.write (readline s).1 :: PumpEv.drain ::
      read_stdin_and_send (readline s).2
termination_by s.length
decreasing_by
  have key : ∀ t : List Nat, (readline t).2.length ≤ t.length := by
    intro t
    induction t with
    | nil => simp [readline]
    | cons b rest ih =>
      by_cases hb : b = 10
      · simp [readline, hb]
      · simp [readline, hb]
        omega
  have hs : s ≠ [] := fun he => _h (by rw [he]; rfl)
  cases s with
  | nil => exact absurd rfl hs
  | cons b rest =>
    by_cases hb : b = 10
    · simp [readline, hb]
    · simp [readline, hb]
      have := key rest
      omega

/-- Termination behaviour of `read_stdin_and_send` (lines 14-25) as a function
of how the `try` body ended: the trailing event trace and the exception (if
any) that escapes the coroutine.  The
`except (ConnectionResetError, asyncio.CancelledError): pass` suppresses those
two exceptions, and the `finally` block closes the writer and awaits
`wait_closed` on every path; any other exception escapes after the `finally`
has run. -/
def cmdPumpFinish : TryEnd → List PumpEv × Option PyExc
  | TryEnd.broke => ([PumpEv.close, PumpEv.waitClosed], none)
  | TryEnd.raised e =>
    if caughtByPumpExcept e then ([PumpEv.close, PumpEv.waitClosed], none)
    else ([PumpEv.close, PumpEv.waitClosed], some e)

/-! ## Telemetry pump: `read_tcp_and_print` (lines 28-38) -/

/-- Bounds of the valid second byte of a UTF-8 sequence whose first byte is
`b1` (Unicode Table 3-7): E0 requires A0-BF, ED requires 80-9F, F0 requires
90-BF, F4 requires 80-8F, all other leads require 80-BF. -/
def utf8SecondLo (b1 : Nat) : Nat :=
  if b1 = 0xE0 then 0xA0 else if b1 = 0xF0 then 0x90 else 0x80

def utf8SecondHi (b1 : Nat) : Nat :=
  if b1 = 0xED then 0x9F else if b1 = 0xF4 then 0x8F else 0xBF

/-- One decoding step of CPython's UTF-8 decoder with `errors="replace"`, at a
lead byte `b1` followed by the bytes `rest`: returns the decoded code point
(U+FFFD on an ill-formed maximal subpart) and how many bytes were consumed
(at least 1, counting `b1`).  A well-formed sequence per Unicode Table 3-7
consumes all its bytes and yields its code point; otherwise the maximal
subpart of a well-formed sequence present is consumed and replaced, so
decoding restarts at the first offending byte. -/
def utf8Step (b1 : Nat) (rest : List Nat) : Nat × Nat :=
  if b1 < 0x80 then (b1, 1)
  else if 0xC2 ≤ b1 ∧ b1 ≤ 0xDF then
    match rest with
    | [] => (0xFFFD, 1)
    | b2 :: _ =>
      if 0x80 ≤ b2 ∧ b2 ≤ 0xBF then ((b1 - 0xC0) * 0x40 + (b2 - 0x80), 2)
      else (0xFFFD, 1)
  else if 0xE0 ≤ b1 ∧ b1 ≤ 0xEF then
    match rest with
    | [] => (0xFFFD, 1)
    | b2 :: rest2 =>
      if utf8SecondLo b1 ≤ b2 ∧ b2 ≤ utf8SecondHi b1 then
        match rest2 with
        | [] => (0xFFFD, 2)
        | b3 :: _ =>
          if 0x80 ≤ b3 ∧ b3 ≤ 0xBF then
            ((b1 - 0xE0) * 0x1000 + (b2 - 0x80) * 0x40 + (b3 - 0x80), 3)
          else (0xFFFD, 2)
      else (0xFFFD, 1)
  else if 0xF0 ≤ b1 ∧ b1 ≤ 0xF4 then
    match rest with
    | [] => (0xFFFD, 1)
    | b2 :: rest2 =>
      if utf8SecondLo b1 ≤ b2 ∧ b2 ≤ utf8SecondHi b1 then
        match rest2 with
        | [] => (0xFFFD, 2)
        | b3 :: rest3 =>
          if 0x80 ≤ b3 ∧ b3 ≤ 0xBF then
            match rest3 with
            | [] => (0xFFFD, 3)
            | b4 :: _ =>
              if 0x80 ≤ b4 ∧ b4 ≤ 0xBF then
                ((b1 - 0xF0) * 0x40000 + (b2 - 0x80) * 0x1000 +
                  (b3 - 0x80) * 0x40 + (b4 - 0x80), 4)
              else (0xFFFD, 3)
          else (0xFFFD, 2)
      else (0xFFFD, 1)
  else (0xFFFD, 1)

/-- Iteration of `utf8Step` over a byte list with explicit fuel (a bound on
the number of decoded units, used only to make the recursion structural):
decode one unit, then continue after the bytes it consumed. -/
def utf8DecodeLoop : Nat → List Nat → List Nat
  | 0, _ => []
  | _, [] => []
  | fuel + 1, b1 :: rest =>
    (utf8Step b1 rest).1 :: utf8DecodeLoop fuel (rest.drop ((utf8Step b1 rest).2 - 1))

/-- Models `bytes.decode("utf-8", errors="replace")` as used on line 35 of the
source: iterate `utf8Step` over the byte list, producing the list of decoded
code points (each ill-formed maximal subpart contributing one U+FFFD).  Every
step consumes at least the lead byte, so `bs.length` units always suffice and
the fuel never runs out. -/
def utf8DecodeReplace (bs : List Nat) : List Nat := utf8DecodeLoop bs.length bs

/-- `print(text, end=endStr, flush=True)` writes exactly `text ++ endStr` to
standard output (flushing adds no characters). -/
def pyPrint (text endStr : List Nat) : List Nat := text ++ endStr

/-- The code points `read_tcp_and_print` writes to standard output when the
successive `reader.read(1024)` calls return the chunks of `chunks` in order
(lines 31-36): loop until a read returns no bytes, decode each chunk with the
replacement UTF-8 decoder, and print it with `end=""` and `flush=True`. -/
def read_tcp_and_print : List (List Nat) → List Nat
  | [] => []
  | data :: rest =>
    if data = [] then []
    else pyPrint (utf8DecodeReplace data) [] ++ read_tcp_and_print rest

/-- Termination behaviour of `read_tcp_and_print` (lines 30-38): the `try`
ends by breaking at a zero-byte read or by an exception at an await point;
`ConnectionResetError` and `CancelledError` are suppressed, anything else
escapes the coroutine.  There is no `finally` and nothing is printed to
standard error. -/
def telPumpFinish : TryEnd → Option PyExc
  | TryEnd.broke => none
  | TryEnd.raised e => if caughtByPumpExcept e then none else some e

/-! ## Supervisor: `tcp_translation_client` (lines 41-66) and `main` (69-76) -/

/-- The `return_when` mode passed to `asyncio.wait`. -/
inductive WaitMode
  | firstCompleted
  | allCompleted
deriving DecidableEq, Repr

/-- Observable events of the supervisor, in program order: attempting
`asyncio.open_connection(host, port)`, a `print(s, file=sys.stderr)`,
`asyncio.create_task` of the named coroutine, `await asyncio.wait` on the
named tasks with the given `return_when` mode, `task.cancel()` on the named
task, and `await asyncio.gather` on the named tasks with the given
`return_exceptions` flag. -/
inductive SupEv
  | connectAttempt (host : String) (port : Nat)
  | printErr (s : String)
  | createTask (name : String)
  | waitTasks (names : List String) (mode : WaitMode)
  | cancelTask (name : String)
  | gatherTasks (names : List String) (return_exceptions : Bool)
deriving DecidableEq, Repr

/-- How a run of `tcp_translation_client`'s `try` body ends: both connections
succeed and the body runs to completion (`ok`), the first
`open_connection` (command port, line 45) raises, the second
`open_connection` (telemetry port, line 49) raises, or some exception caught
by `except Exception` is raised later during orchestration (lines 52-61). -/
inductive RunOutcome
  | ok
  | commandConnectFails (msg : String)
  | telemetryConnectFails (msg : String)
  | orchestrationFails (msg : String)
deriving DecidableEq, Repr

/-- The event trace of `tcp_translation_client command_port log_port`
(lines 41-66), for each way its `try` body can end.  An exception raised
inside the `try` aborts the remainder of the body, is caught by
`except Exception as e` (line 63) which prints `f"Error: {e}"` to standard
error, and the `finally` (lines 65-66) prints `"\nDisconnected"` to standard
error on every path. -/
def tcp_translation_client (command_port log_port : Nat) : RunOutcome → List SupEv
  | RunOutcome.commandConnectFails m =>
    [SupEv.connectAttempt "127.0.0.1" command_port,
     SupEv.printErr ("Error: " ++ m),
     SupEv.printErr "\nDisconnected"]
  | RunOutcome.telemetryConnectFails m =>
    [SupEv.connectAttempt "127.0.0.1" command_port,
     SupEv.printErr ("\nReady to command over port " ++ toString command_port),
     SupEv.connectAttempt "127.0.0.1" log_port,
     SupEv.printErr ("Error: " ++ m),
     SupEv.printErr "\nDisconnected"]
  | RunOutcome.orchestrationFails m =>
    [SupEv.connectAttempt "127.0.0.1" command_port,
     SupEv.printErr ("\nReady to command over port " ++ toString command_port),
     SupEv.connectAttempt "127.0.0.1" log_port,
     SupEv.printErr ("Ready for telemetry over port " ++ toString log_port ++ "\n"),
     SupEv.printErr ("Error: " ++ m),
     SupEv.printErr "\nDisconnected"]
  | RunOutcome.ok =>
    [SupEv.connectAttempt "127.0.0.1" command_port,
     SupEv.printErr ("\nReady to command over port " ++ toString command_port),
     SupEv.connectAttempt "127.0.0.1" log_port,
     SupEv.printErr ("Ready for telemetry over port " ++ toString log_port ++ "\n"),
     SupEv.createTask "stdin_task",
     SupEv.createTask "log_task",
     SupEv.waitTasks ["stdin_task", "log_task"] WaitMode.firstCompleted,
     SupEv.cancelTask "stdin_task",
     SupEv.cancelTask "log_task",
     SupEv.gatherTasks ["stdin_task", "log_task"] true,
     SupEv.printErr "\nDisconnected"]

/-- Terminal state of an asyncio task: completed, or finished with an
exception that escaped its coroutine. -/
inductive TaskOutcome
  | completed
  | raised (e : PyExc)
deriving DecidableEq, Repr

/-- Terminal state of the `stdin_task` task wrapping `read_stdin_and_send`,
given how that coroutine's `try` body ended. -/
def stdinTaskOutcome (o : TryEnd) : TaskOutcome :=
  match (cmdPumpFinish o).2 with
  | none => TaskOutcome.completed
  | some e => TaskOutcome.raised e

/-- Terminal state of the `log_task` task wrapping `read_tcp_and_print`,
given how that coroutine's `try` body ended. -/
def logTaskOutcome (o : TryEnd) : TaskOutcome :=
  match telPumpFinish o with
  | none => TaskOutcome.completed
  | some e => TaskOutcome.raised e

/-- The exception raised by `await asyncio.gather(*tasks, return_exceptions)`
on the given terminal task states: with `return_exceptions = true` exceptions
are returned as results and nothing is raised; otherwise the first task
exception is re-raised. -/
def gatherRaised (return_exceptions : Bool) (rs : List TaskOutcome) : Option PyExc :=
  if return_exceptions then none
  else rs.findSome? fun r =>
    match r with
    | TaskOutcome.raised e => some e
    | TaskOutcome.completed => none

/-- The exception from the pump tasks that reaches the `except Exception`
handler of `tcp_translation_client`, given the pumps' terminal states:
`await asyncio.wait(...)` never re-raises task exceptions, and line 61 awaits
`asyncio.gather(stdin_task, log_task, return_exceptions=True)`. -/
def supervisorPumpRaised (r1 r2 : TaskOutcome) : Option PyExc :=
  gatherRaised true [r1, r2]

/-- The exception handling of `tcp_translation_client` seen from its caller
(lines 43, 63-66): given the exception (if any) its `try` body raises,
returns the exception that propagates out of the function and the stderr
messages printed by the handler and the `finally` block.  `except Exception`
catches only instances of `Exception`; a `BaseException` such as
`KeyboardInterrupt` runs the `finally` and then propagates. -/
def tcpClientExcFlow (raised : Option PyExc) : Option PyExc × List String :=
  match raised with
  | none => (none, ["\nDisconnected"])
  | some e =>
    if isExceptionInstance e then
      (none, ["Error: " ++ pyExcStr e, "\nDisconnected"])
    else
      (some e, ["\nDisconnected"])

/-- `main` (lines 69-76): runs `tcp_translation_client 8124 8125` under
`asyncio.run` and catches `KeyboardInterrupt`, printing `"\nExiting..."` to
standard error.  Given the exception (if any) raised inside the client's
`try` body, returns the exception propagating out of `main` and the stderr
messages printed. -/
def main (raised : Option PyExc) : Option PyExc × List String :=
  let r := tcpClientExcFlow raised
  match r.1 with
  | some PyExc.keyboardInterrupt => (none, r.2 ++ ["\nExiting..."])
  | other => (other, r.2)

/-- The two fixed ports of `main` (lines 70-71). -/
def command_port : Nat := 8124

def log_port : Nat := 8125

/-- The byte sequences written to the command connection by a command-pump
trace, in order. -/
def writesOf (tr : List PumpEv) : List (List Nat) :=
  tr.filterMap fun ev =>
    match ev with
    | PumpEv.write l => some l
    | _ => none

/-! ## Helper lemmas -/

theorem readline_snd_length_le (s : List Nat) : (readline s).2.length ≤ s.length := by
  induction s with
  | nil => simp [readline]
  | cons b rest ih =>
    by_cases hb : b = 10
    · simp [readline, hb]
    · simp [readline, hb]
      omega

theorem readline_append_newline (m t : List Nat) (hm : 10 ∉ m) :
    readline (m ++ 10 :: t) = (m ++ [10], t) := by
  induction m with
  | nil => simp [readline]
  | cons a m ih =>
    have ha : a ≠ 10 := fun he => hm (by simp [he])
    have hm' : 10 ∉ m := fun hx => hm (List.mem_cons_of_mem a hx)
    simp [readline, ha, ih hm']

theorem readline_no_newline (m : List Nat) (hm : 10 ∉ m) : readline m = (m, []) := by
  induction m with
  | nil => simp [readline]
  | cons a m ih =>
    have ha : a ≠ 10 := fun he => hm (by simp [he])
    have hm' : 10 ∉ m := fun hx => hm (List.mem_cons_of_mem a hx)
    simp [readline, ha, ih hm']

theorem read_stdin_and_send_nil :
    read_stdin_and_send [] = [PumpEv.readLine [], PumpEv.close, PumpEv.waitClosed] := by
  rw [read_stdin_and_send]
  simp [readline]

theorem read_stdin_and_send_line (m t : List Nat) (hm : 10 ∉ m) :
    read_stdin_and_send (m ++ 10 :: t) =
      PumpEv.readLine (m ++ [10]) :: PumpEv.write (m ++ [10]) :: PumpEv.drain ::
        read_stdin_and_send t := by
  rw [read_stdin_and_send]
  simp [readline_append_newline m t hm]

theorem read_stdin_and_send_eof_partial (m : List Nat) (hm : 10 ∉ m) (hne : m ≠ []) :
    read_stdin_and_send m =
      [PumpEv.readLine m, PumpEv.write m, PumpEv.drain,
       PumpEv.readLine [], PumpEv.close, PumpEv.waitClosed] := by
  rw [read_stdin_and_send]
  simp [readline_no_newline m hm, hne, read_stdin_and_send_nil]

theorem read_stdin_and_send_lines (ls : List (List Nat)) (t : List Nat)
    (h : ∀ l ∈ ls, ∃ m, l = m ++ [10] ∧ 10 ∉ m) :
    read_stdin_and_send (ls.flatten ++ t) =
      (ls.flatMap fun l => [PumpEv.readLine l, PumpEv.write l, PumpEv.drain]) ++
        read_stdin_and_send t := by
  induction ls with
  | nil => simp
  | cons l ls ih =>
    obtain ⟨m, hl, hm⟩ := h l (List.mem_cons_self l ls)
    have h' : ∀ x ∈ ls, ∃ m, x = m ++ [10] ∧ 10 ∉ m :=
      fun x hx => h x (List.mem_cons_of_mem l hx)
    subst hl
    have harr : ((m ++ [10]) :: ls).flatten ++ t = m ++ 10 :: (ls.flatten ++ t) := by
      simp
    rw [harr, read_stdin_and_send_line m _ hm, ih h']
    simp

theorem writesOf_append (a b : List PumpEv) : writesOf (a ++ b) = writesOf a ++ writesOf b := by
  simp [writesOf]

theorem writesOf_flatMap (ls : List (List Nat)) :
    writesOf (ls.flatMap fun l => [PumpEv.readLine l, PumpEv.write l, PumpEv.drain]) = ls := by
  induction ls with
  | nil => rfl
  | cons l ls ih => simpa [writesOf] using ih

/-! ## Claim theorems -/

/-- Claim C1: for standard input consisting of newline-terminated lines, the
command pump's trace interleaves, for each line in order, a `readline`
returning that line, a `write` of exactly that line (newline included), and a
completed `drain` before the next `readline`; consequently the byte sequences
written to the command connection are exactly the input lines in input
order. -/
theorem command_pump_preserves_line_order (ls : List (List Nat))
    (h : ∀ l ∈ ls, ∃ m, l = m ++ [10] ∧ 10 ∉ m) :
    read_stdin_and_send ls.flatten =
      (ls.flatMap fun l => [PumpEv.readLine l, PumpEv.write l, PumpEv.drain]) ++
        [PumpEv.readLine [], PumpEv.close, PumpEv.waitClosed] ∧
    writesOf (read_stdin_and_send ls.flatten) = ls := by
  have heq : read_stdin_and_send ls.flatten =
      (ls.flatMap fun l => [PumpEv.readLine l, PumpEv.write l, PumpEv.drain]) ++
        [PumpEv.readLine [], PumpEv.close, PumpEv.waitClosed] := by
    have := read_stdin_and_send_lines ls [] h
    simpa [read_stdin_and_send_nil] using this
  refine ⟨heq, ?_⟩
  rw [heq, writesOf_append, writesOf_flatMap]
  simp [writesOf]

/-- Witness for C1 at the concrete stdin `"hi\n\n"` (bytes 104 105 10 10),
i.e. the two lines `[104, 105, 10]` and `[10]`. -/
theorem command_pump_preserves_line_order_witness :
    (∀ l ∈ ([[104, 105, 10], [10]] : List (List Nat)), ∃ m, l = m ++ [10] ∧ 10 ∉ m) ∧
    writesOf (read_stdin_and_send ([[104, 105, 10], [10]] : List (List Nat)).flatten) =
      [[104, 105, 10], [10]] := by
  have h : ∀ l ∈ ([[104, 105, 10], [10]] : List (List Nat)), ∃ m, l = m ++ [10] ∧ 10 ∉ m := by
    intro l hl
    simp only [List.mem_cons, List.not_mem_nil, or_false] at hl
    rcases hl with hl | hl <;> subst hl
    · exact ⟨[104, 105], by decide⟩
    · exact ⟨[], by decide⟩
  exact ⟨h, (command_pump_preserves_line_order _ h).2⟩

/-- Claim C9: when standard input ends with a final non-empty byte sequence
`m` not terminated by a newline, the command pump still reads `m` as the last
`readline` result, writes `m` verbatim and drains, and only the following
empty read ends the loop, after which the writer is closed. -/
theorem command_pump_forwards_partial_final_line (ls : List (List Nat)) (m : List Nat)
    (h : ∀ l ∈ ls, ∃ p, l = p ++ [10] ∧ 10 ∉ p) (hm : 10 ∉ m) (hne : m ≠ []) :
    read_stdin_and_send (ls.flatten ++ m) =
      (ls.flatMap fun l => [PumpEv.readLine l, PumpEv.write l, PumpEv.drain]) ++
        [PumpEv.readLine m, PumpEv.write m, PumpEv.drain,
         PumpEv.readLine [], PumpEv.close, PumpEv.waitClosed] ∧
    writesOf (read_stdin_and_send (ls.flatten ++ m)) = ls ++ [m] := by
  have heq : read_stdin_and_send (ls.flatten ++ m) =
      (ls.flatMap fun l => [PumpEv.readLine l, PumpEv.write l, PumpEv.drain]) ++
        [PumpEv.readLine m, PumpEv.write m, PumpEv.drain,
         PumpEv.readLine [], PumpEv.close, PumpEv.waitClosed] := by
    rw [read_stdin_and_send_lines ls m h, read_stdin_and_send_eof_partial m hm hne]
  refine ⟨heq, ?_⟩
  rw [heq, writesOf_append, writesOf_flatMap]
  simp [writesOf]

/-- Witness for C9 at the concrete stdin `"a\nb"` (bytes 97 10 98): one full
line `[97, 10]` followed by the unterminated `[98]`. -/
theorem command_pump_forwards_partial_final_line_witness :
    (∀ l ∈ ([[97, 10]] : List (List Nat)), ∃ p, l = p ++ [10] ∧ 10 ∉ p) ∧
    (10 : Nat) ∉ [98] ∧ ([98] : List Nat) ≠ [] ∧
    writesOf (read_stdin_and_send (([[97, 10]] : List (List Nat)).flatten ++ [98])) =
      [[97, 10]] ++ [[98]] := by
  have h : ∀ l ∈ ([[97, 10]] : List (List Nat)), ∃ p, l = p ++ [10] ∧ 10 ∉ p := by
    intro l hl
    simp only [List.mem_cons, List.not_mem_nil, or_false] at hl
    subst hl
    exact ⟨[97], by decide⟩
  exact ⟨h, by decide, by decide,
    (command_pump_forwards_partial_final_line [[97, 10]] [98] h (by decide) (by decide)).2⟩

/-- Claim C2: for every sequence of non-empty chunks received on the
telemetry connection, the text printed to standard output is exactly the
concatenation of the chunks each decoded as UTF-8 with replacement — nothing
added and nothing dropped beyond the replacement performed by the decoder. -/
theorem telemetry_pump_prints_decoded_chunks (chunks : List (List Nat))
    (h : ∀ c ∈ chunks, c ≠ []) :
    read_tcp_and_print chunks = (chunks.map utf8DecodeReplace).flatten := by
  induction chunks with
  | nil => rfl
  | cons c rest ih =>
    have hc : c ≠ [] := h c (List.mem_cons_self c rest)
    have h' : ∀ x ∈ rest, x ≠ [] := fun x hx => h x (List.mem_cons_of_mem c hx)
    simp [read_tcp_and_print, hc, pyPrint, ih h']

/-- Witness for C2 at the chunks `b"OK\n"` and `b"\xff\xfe"`: the second
chunk is invalid UTF-8 and decodes to two replacement characters, matching
the spec scenario. -/
theorem telemetry_pump_prints_decoded_chunks_witness :
    (∀ c ∈ ([[79, 75, 10], [255, 254]] : List (List Nat)), c ≠ []) ∧
    read_tcp_and_print [[79, 75, 10], [255, 254]] =
      (([[79, 75, 10], [255, 254]] : List (List Nat)).map utf8DecodeReplace).flatten ∧
    read_tcp_and_print [[79, 75, 10], [255, 254]] = [79, 75, 10, 0xFFFD, 0xFFFD] :=
  ⟨by decide, telemetry_pump_prints_decoded_chunks _ (by decide), by decide⟩

/-- Claim C3: on the successful path the supervisor's trace is exactly the
setup events followed by an `asyncio.wait` with `FIRST_COMPLETED` (never
`ALL_COMPLETED`), then cancellation of both pump tasks, then a gather with
`return_exceptions = true` (which by `gatherRaised` suppresses every error
raised during the forced shutdown), and only then the disconnection notice. -/
theorem supervisor_first_completion_shutdown (cp lp : Nat) (rs : List TaskOutcome) :
    tcp_translation_client cp lp RunOutcome.ok =
      [SupEv.connectAttempt "127.0.0.1" cp,
       SupEv.printErr ("\nReady to command over port " ++ toString cp),
       SupEv.connectAttempt "127.0.0.1" lp,
       SupEv.printErr ("Ready for telemetry over port " ++ toString lp ++ "\n"),
       SupEv.createTask "stdin_task",
       SupEv.createTask "log_task"] ++
      [SupEv.waitTasks ["stdin_task", "log_task"] WaitMode.firstCompleted,
       SupEv.cancelTask "stdin_task",
       SupEv.cancelTask "log_task",
       SupEv.gatherTasks ["stdin_task", "log_task"] true,
       SupEv.printErr "\nDisconnected"] ∧
    SupEv.waitTasks ["stdin_task", "log_task"] WaitMode.allCompleted ∉
      tcp_translation_client cp lp RunOutcome.ok ∧
    gatherRaised true rs = none := by
  refine ⟨rfl, ?_, rfl⟩
  simp [tcp_translation_client]

/-- Witness for C3 at the concrete ports of `main` and a gather over one
cancelled and one completed task. -/
theorem supervisor_first_completion_shutdown_witness :
    SupEv.waitTasks ["stdin_task", "log_task"] WaitMode.allCompleted ∉
      tcp_translation_client 8124 8125 RunOutcome.ok ∧
    gatherRaised true [TaskOutcome.raised PyExc.cancelledError, TaskOutcome.completed] = none :=
  ⟨(supervisor_first_completion_shutdown 8124 8125
      [TaskOutcome.raised PyExc.cancelledError, TaskOutcome.completed]).2.1,
   (supervisor_first_completion_shutdown 8124 8125
      [TaskOutcome.raised PyExc.cancelledError, TaskOutcome.completed]).2.2⟩

/-- Claim C4: on every way the command pump's `try` body can end — the break
at end-of-file as well as any raised exception — the `finally` block closes
the command connection's write side and then awaits `wait_closed`, and for
the three termination causes named by the spec (end-of-file, connection
reset, cancellation) the pump returns without an escaping exception. -/
theorem command_pump_closes_writer_on_termination :
    (∀ o : TryEnd, (cmdPumpFinish o).1 = [PumpEv.close, PumpEv.waitClosed]) ∧
    (cmdPumpFinish TryEnd.broke).2 = none ∧
    (cmdPumpFinish (TryEnd.raised PyExc.connectionResetError)).2 = none ∧
    (cmdPumpFinish (TryEnd.raised PyExc.cancelledError)).2 = none := by
  refine ⟨fun o => ?_, rfl, rfl, rfl⟩
  cases o with
  | broke => rfl
  | raised e => cases e <;> rfl

/-- Witness for C4 at the cancellation and end-of-file termination causes. -/
theorem command_pump_closes_writer_on_termination_witness :
    (cmdPumpFinish (TryEnd.raised PyExc.cancelledError)).1 =
      [PumpEv.close, PumpEv.waitClosed] ∧
    (cmdPumpFinish TryEnd.broke).2 = none :=
  ⟨command_pump_closes_writer_on_termination.1 (TryEnd.raised PyExc.cancelledError),
   command_pump_closes_writer_on_termination.2.1⟩

/-- Claim C5: when the command connection is refused, the supervisor's trace
contains the error report on standard error and no attempt to connect to the
telemetry port, and it still ends with the disconnection notice; moreover in
every run the very first event is the connection attempt to the command
port, so the command connection is opened strictly before the telemetry
one. -/
theorem command_refused_aborts_before_telemetry (cp lp : Nat) (m : String)
    (o : RunOutcome) (hne : cp ≠ lp) :
    SupEv.printErr ("Error: " ++ m) ∈
      tcp_translation_client cp lp (RunOutcome.commandConnectFails m) ∧
    SupEv.connectAttempt "127.0.0.1" lp ∉
      tcp_translation_client cp lp (RunOutcome.commandConnectFails m) ∧
    (tcp_translation_client cp lp o).head? = some (SupEv.connectAttempt "127.0.0.1" cp) ∧
    (tcp_translation_client cp lp (RunOutcome.commandConnectFails m)).getLast? =
      some (SupEv.printErr "\nDisconnected") := by
  refine ⟨by simp [tcp_translation_client], ?_, ?_, rfl⟩
  · simp only [tcp_translation_client, List.mem_cons, List.not_mem_nil, or_false]
    push_neg
    refine ⟨?_, by simp, by simp⟩
    intro hcon
    exact hne (SupEv.connectAttempt.injEq .. ▸ hcon).2.symm
  · cases o <;> rfl

/-- Witness for C5 at the concrete ports of `main` (8124, 8125) and a
concrete refusal message. -/
theorem command_refused_aborts_before_telemetry_witness :
    (8124 : Nat) ≠ 8125 ∧
    (SupEv.printErr ("Error: " ++ "Connection refused") ∈
      tcp_translation_client 8124 8125 (RunOutcome.commandConnectFails "Connection refused") ∧
    SupEv.connectAttempt "127.0.0.1" 8125 ∉
      tcp_translation_client 8124 8125 (RunOutcome.commandConnectFails "Connection refused") ∧
    (tcp_translation_client 8124 8125 RunOutcome.ok).head? =
      some (SupEv.connectAttempt "127.0.0.1" 8124) ∧
    (tcp_translation_client 8124 8125
        (RunOutcome.commandConnectFails "Connection refused")).getLast? =
      some (SupEv.printErr "\nDisconnected")) :=
  ⟨by decide,
   command_refused_aborts_before_telemetry 8124 8125 "Connection refused"
     RunOutcome.ok (by decide)⟩

/-- Claim C6: a connection reset and a cancellation are each caught by the
pump handlers and treated exactly like the normal break: the command pump
still closes its writer and neither pump lets the exception escape, so
nothing is raised and no error is reported for these two conditions. -/
theorem pumps_treat_reset_and_cancel_as_normal :
    cmdPumpFinish (TryEnd.raised PyExc.connectionResetError) =
      ([PumpEv.close, PumpEv.waitClosed], none) ∧
    cmdPumpFinish (TryEnd.raised PyExc.cancelledError) =
      ([PumpEv.close, PumpEv.waitClosed], none) ∧
    telPumpFinish (TryEnd.raised PyExc.connectionResetError) = none ∧
    telPumpFinish (TryEnd.raised PyExc.cancelledError) = none :=
  ⟨rfl, rfl, rfl, rfl⟩

/-- Claim C7: whatever way each pump's `try` body ends, the resulting task
outcomes never surface an exception to `tcp_translation_client`'s handler —
`asyncio.wait` does not re-raise and the gather uses
`return_exceptions = True` — while a failure of either `open_connection`
does reach the top level and is printed as an error. -/
theorem pump_errors_do_not_reach_top_level (o1 o2 : TryEnd) (cp lp : Nat) (m : String) :
    supervisorPumpRaised (stdinTaskOutcome o1) (logTaskOutcome o2) = none ∧
    SupEv.printErr ("Error: " ++ m) ∈
      tcp_translation_client cp lp (RunOutcome.commandConnectFails m) ∧
    SupEv.printErr ("Error: " ++ m) ∈
      tcp_translation_client cp lp (RunOutcome.telemetryConnectFails m) := by
  refine ⟨rfl, ?_, ?_⟩ <;> simp [tcp_translation_client]

/-- Witness for C7 at a command pump that raised an uncaught I/O error, a
telemetry pump that broke normally, and a concrete refused setup. -/
theorem pump_errors_do_not_reach_top_level_witness :
    supervisorPumpRaised (stdinTaskOutcome (TryEnd.raised (PyExc.otherError "broken pipe")))
      (logTaskOutcome TryEnd.broke) = none ∧
    SupEv.printErr ("Error: " ++ "refused") ∈
      tcp_translation_client 8124 8125 (RunOutcome.commandConnectFails "refused") :=
  ⟨(pump_errors_do_not_reach_top_level (TryEnd.raised (PyExc.otherError "broken pipe"))
      TryEnd.broke 8124 8125 "refused").1,
   (pump_errors_do_not_reach_top_level (TryEnd.raised (PyExc.otherError "broken pipe"))
      TryEnd.broke 8124 8125 "refused").2.1⟩

/-- Claim C8: on every termination path of `tcp_translation_client` — normal
shutdown, either connection refused, or any other caught orchestration
exception — the last event of its trace is the disconnection notice printed
to standard error. -/
theorem supervisor_always_prints_disconnected (cp lp : Nat) (o : RunOutcome) :
    (tcp_translation_client cp lp o).getLast? = some (SupEv.printErr "\nDisconnected") := by
  cases o <;> rfl

/-- Witness for C8 at the successful-run trace with the ports of `main`. -/
theorem supervisor_always_prints_disconnected_witness :
    (tcp_translation_client 8124 8125 RunOutcome.ok).getLast? =
      some (SupEv.printErr "\nDisconnected") :=
  supervisor_always_prints_disconnected 8124 8125 RunOutcome.ok

/-- Claim C10: every `Exception` instance raised during setup or
orchestration is caught by `tcp_translation_client`, which prints its message
to standard error and returns normally; and for both an ordinary exception
and a `KeyboardInterrupt`, nothing propagates out of `main`. -/
theorem top_level_catches_ordinary_and_interrupt (e : PyExc) :
    (isExceptionInstance e = true →
      tcpClientExcFlow (some e) = (none, ["Error: " ++ pyExcStr e, "\nDisconnected"])) ∧
    (isExceptionInstance e = true ∨ e = PyExc.keyboardInterrupt →
      (main (some e)).1 = none) := by
  constructor
  · intro he
    simp [tcpClientExcFlow, he]
  · intro he
    rcases he with he | he
    · simp [main, tcpClientExcFlow, he]
    · subst he
      rfl

/-- Witness for C10 at a concrete ordinary exception and at
`KeyboardInterrupt`. -/
theorem top_level_catches_ordinary_and_interrupt_witness :
    isExceptionInstance (PyExc.otherError "boom") = true ∧
    tcpClientExcFlow (some (PyExc.otherError "boom")) =
      (none, ["Error: " ++ pyExcStr (PyExc.otherError "boom"), "\nDisconnected"]) ∧
    (main (some PyExc.keyboardInterrupt)).1 = none :=
  ⟨rfl,
   (top_level_catches_ordinary_and_interrupt (PyExc.otherError "boom")).1 rfl,
   (top_level_catches_ordinary_and_interrupt PyExc.keyboardInterrupt).2 (Or.inr rfl)⟩

end Propulsion
